import Mathlib

/-!
Verification of the "Perceptron City" game logic.

The repository contains four near-duplicate React components; the pure game
logic of each is embedded below:
* `Part000`  — src/unnamed/part_000: count-based available stock, static
  weights 2/6/12, range [80, 88], 5 attempts.
* `Part001`  — src/unnamed/part_001: item-list collections with string ids,
  static weights, `hasChecked` flag.  (The first half of src/unnamed/part_002
  is textually identical logic.)
* `Dynamic`  — second half of src/unnamed/part_002: weather-driven dynamic
  weights, range [100, 150], 3 attempts, weather sliders.
* `CityTsx`  — src/src/components/PerceptronCity.tsx: slider-input evaluator
  with the three-way `cityState` classification.

React `useState` fields become record fields; each event handler becomes a
pure `State → State` function; JS numbers are modelled as `Int` where the
code only ever adds integers and as `ℚ` where division occurs.
-/

namespace PerceptronCity

/-- Source: `type EnergyType = "solar" | "wind" | "hydro"` -/
inductive EnergyType
  | solar
  | wind
  | hydro
deriving DecidableEq

/-- Source: `type GameStatus = "intro" | "playing" | "won" | "lost"` -/
inductive GameStatus
  | intro
  | playing
  | won
  | lost
deriving DecidableEq

/-- Source: `interface PlacedItem { id: string; type: EnergyType }` -/
structure Item where
  id : String
  type : EnergyType
deriving DecidableEq

/-- The initial stock built by the loop
`for (let i = 0; i < 5; i++) { push solar-i; push wind-i; push hydro-i }`
(src/unnamed/part_001 lines 30-38, src/unnamed/part_002 lines 563-571),
written out with the constant bound 5 unrolled. -/
def initItems : List Item :=
  [⟨"solar-0", .solar⟩, ⟨"wind-0", .wind⟩, ⟨"hydro-0", .hydro⟩,
   ⟨"solar-1", .solar⟩, ⟨"wind-1", .wind⟩, ⟨"hydro-1", .hydro⟩,
   ⟨"solar-2", .solar⟩, ⟨"wind-2", .wind⟩, ⟨"hydro-2", .hydro⟩,
   ⟨"solar-3", .solar⟩, ⟨"wind-3", .wind⟩, ⟨"hydro-3", .hydro⟩,
   ⟨"solar-4", .solar⟩, ⟨"wind-4", .wind⟩, ⟨"hydro-4", .hydro⟩]

/-- The ids of a collection. -/
def idsOf (l : List Item) : List String := l.map Item.id

namespace Part000

def SOLAR_WEIGHT : Int := 2
def WIND_WEIGHT : Int := 6
def HYDRO_WEIGHT : Int := 12
def THRESHOLD_MIN : Int := 80
def THRESHOLD_MAX : Int := 88

/-- Source: `placedItems.reduce((sum, item) => ..., 0)` — src/unnamed/part_000
lines 42-47. -/
def totalEnergy (placedItems : List Item) : Int :=
  placedItems.foldl
    (fun sum item =>
      if item.type = .solar then sum + SOLAR_WEIGHT
      else if item.type = .wind then sum + WIND_WEIGHT
      else if item.type = .hydro then sum + HYDRO_WEIGHT
      else sum)
    0

/-- Source: `totalEnergy >= THRESHOLD_MIN && totalEnergy <= THRESHOLD_MAX` —
src/unnamed/part_000 line 50. -/
def isInRange (placedItems : List Item) : Bool :=
  THRESHOLD_MIN ≤ totalEnergy placedItems && totalEnergy placedItems ≤ THRESHOLD_MAX

/-- The `useState` fields of src/unnamed/part_000.  The available stock is
kept as three counters there, not as item lists. -/
structure State where
  gameStatus : GameStatus
  attemptsLeft : Int
  availableSolar : Int
  availableWind : Int
  availableHydro : Int
  placedItems : List Item
deriving DecidableEq

/-- Source: `handleCheckEnergy` — src/unnamed/part_000 lines 56-66. -/
def handleCheckEnergy (s : State) : State :=
  if isInRange s.placedItems then
    { s with gameStatus := .won }
  else
    let newAttempts := s.attemptsLeft - 1
    if newAttempts = 0 then
      { s with attemptsLeft := newAttempts, gameStatus := .lost }
    else
      { s with attemptsLeft := newAttempts }

/-- The commit operation as exposed to the player: the "Check Energy Level"
button is rendered only on the `playing` screen (src/unnamed/part_000
lines 248, 389-398) and is `disabled={placedItems.length === 0}`
(line 393), so the handler fires only when the phase is `playing` and the
placed collection is non-empty. -/
def commit (s : State) : State :=
  if s.gameStatus = .playing ∧ s.placedItems ≠ [] then handleCheckEnergy s else s

end Part000

namespace CityTsx

def solarWeight : ℚ := 12 / 10
def windWeight : ℚ := 8 / 10
def hydroWeight : ℚ := 1
def THRESHOLD_MIN : ℚ := 10
def THRESHOLD_MAX : ℚ := 20

/-- Source: `solarInput * solarWeight + windInput * windWeight + hydroInput * hydroWeight`
— src/src/components/PerceptronCity.tsx lines 30-33. -/
def totalEnergy (solarInput windInput hydroInput : ℚ) : ℚ :=
  solarInput * solarWeight + windInput * windWeight + hydroInput * hydroWeight

/-- Source: `let cityState: "off" | "powered" | "overload"` -/
inductive CityState
  | off
  | powered
  | overload
deriving DecidableEq

/-- The classification of src/src/components/PerceptronCity.tsx lines 39-44:
start from `"off"`, switch to `"powered"` when the total lies in
`[THRESHOLD_MIN, THRESHOLD_MAX]`, else to `"overload"` when it exceeds
`THRESHOLD_MAX`. -/
def cityState (totalEnergy : ℚ) : CityState :=
  if THRESHOLD_MIN ≤ totalEnergy ∧ totalEnergy ≤ THRESHOLD_MAX then .powered
  else if THRESHOLD_MAX < totalEnergy then .overload
  else .off

end CityTsx

/-- The per-category weight as the spec words it (`weight(category)`,
static mode constants 2/6/12); used to compare the code's fold against
`Σ weight(item.category)`. -/
def specWeight : EnergyType → Int
  | .solar => Part000.SOLAR_WEIGHT
  | .wind => Part000.WIND_WEIGHT
  | .hydro => Part000.HYDRO_WEIGHT

namespace Part001

def THRESHOLD_MIN : Int := 80
def THRESHOLD_MAX : Int := 88

/-- The `useState` fields of src/unnamed/part_001 (both collections are item
lists there).  `totalEnergy` of part_001 (lines 40-45) is textually identical
to part_000's, so `Part000.totalEnergy` is reused for it. -/
structure State where
  gameStatus : GameStatus
  attemptsLeft : Int
  hasChecked : Bool
  placedItems : List Item
  availableItems : List Item
deriving DecidableEq

/-- Source: `handleStartGame` — src/unnamed/part_001 lines 64-67. -/
def handleStartGame (s : State) : State :=
  { s with gameStatus := .playing, hasChecked := false }

/-- Source: `handleCheckEnergy` — src/unnamed/part_001 lines 69-82. -/
def handleCheckEnergy (s : State) : State :=
  let s1 := { s with hasChecked := true }
  if THRESHOLD_MIN ≤ Part000.totalEnergy s1.placedItems ∧
      Part000.totalEnergy s1.placedItems ≤ THRESHOLD_MAX then
    { s1 with gameStatus := .won }
  else
    let newAttempts := s1.attemptsLeft - 1
    if newAttempts = 0 then
      { s1 with attemptsLeft := newAttempts, gameStatus := .lost }
    else
      { s1 with attemptsLeft := newAttempts }

/-- Source: `handleDrop` — src/unnamed/part_001 lines 103-113: find the id in
`availableItems`; when found, filter it out of `availableItems`, append it to
`placedItems` and clear `hasChecked`; otherwise do nothing. -/
def handleDrop (itemId : String) (s : State) : State :=
  match s.availableItems.find? (fun i => i.id == itemId) with
  | some item =>
      { s with
        availableItems := s.availableItems.filter (fun i => !(i.id == itemId)),
        placedItems := s.placedItems ++ [item],
        hasChecked := false }
  | none => s

/-- Source: `handleRemoveItem` — src/unnamed/part_001 lines 119-126. -/
def handleRemoveItem (id : String) (s : State) : State :=
  match s.placedItems.find? (fun i => i.id == id) with
  | some item =>
      { s with
        placedItems := s.placedItems.filter (fun i => !(i.id == id)),
        availableItems := s.availableItems ++ [item],
        hasChecked := false }
  | none => s

end Part001

namespace Dynamic

def NUM_ITEMS_PER_TYPE : ℚ := 5
def THRESHOLD_MIN : ℚ := 100
def THRESHOLD_MAX : ℚ := 150

/-- Source: `const [weather, setWeather] = useState({ sun: 0, wind: 0, rain: 0 })` —
src/unnamed/part_002 lines 553-557. -/
structure Weather where
  sun : ℚ
  wind : ℚ
  rain : ℚ
deriving DecidableEq

/-- The record returned by `getDynamicWeights`. -/
structure Weights where
  solar : ℚ
  wind : ℚ
  hydro : ℚ
deriving DecidableEq

/-- Source: `Number(x.toFixed(2))`: round to the nearest multiple of 1/100; on a tie
ECMAScript `toFixed` picks the larger candidate, hence floor of `x*100 + 1/2`
(the weights here are non-negative). -/
def round2 (q : ℚ) : ℚ := (⌊q * 100 + 1 / 2⌋ : ℚ) / 100

/-- Source: `getDynamicWeights` — src/unnamed/part_002 lines 574-583:
`weight = weather[category] * 100 / NUM_ITEMS_PER_TYPE`, then
`Number(weight.toFixed(2))`. -/
def getDynamicWeights (w : Weather) : Weights :=
  { solar := round2 (w.sun * 100 / NUM_ITEMS_PER_TYPE),
    wind := round2 (w.wind * 100 / NUM_ITEMS_PER_TYPE),
    hydro := round2 (w.rain * 100 / NUM_ITEMS_PER_TYPE) }

/-- The `useState` fields of the dynamic variant (second half of
src/unnamed/part_002). -/
structure State where
  gameStatus : GameStatus
  attemptsLeft : Int
  hasChecked : Bool
  placedItems : List Item
  availableItems : List Item
  weather : Weather
deriving DecidableEq

/-- Source: `totalEnergy` — src/unnamed/part_002 lines 585-592: the reduce over
`placedItems` using the destructured `getDynamicWeights()` values. -/
def totalEnergy (w : Weather) (placedItems : List Item) : ℚ :=
  placedItems.foldl
    (fun sum item =>
      if item.type = .solar then sum + (getDynamicWeights w).solar
      else if item.type = .wind then sum + (getDynamicWeights w).wind
      else if item.type = .hydro then sum + (getDynamicWeights w).hydro
      else sum)
    0

/-- Source: `handleStartGame` — src/unnamed/part_002 lines 609-612. -/
def handleStartGame (s : State) : State :=
  { s with gameStatus := .playing, hasChecked := false }

/-- Source: `handleCheckEnergy` — src/unnamed/part_002 lines 614-627. -/
def handleCheckEnergy (s : State) : State :=
  let s1 := { s with hasChecked := true }
  if THRESHOLD_MIN ≤ totalEnergy s1.weather s1.placedItems ∧
      totalEnergy s1.weather s1.placedItems ≤ THRESHOLD_MAX then
    { s1 with gameStatus := .won }
  else
    let newAttempts := s1.attemptsLeft - 1
    if newAttempts = 0 then
      { s1 with attemptsLeft := newAttempts, gameStatus := .lost }
    else
      { s1 with attemptsLeft := newAttempts }

/-- Source: `handleReplay` — src/unnamed/part_002 lines 629-642: full reset. -/
def handleReplay (_ : State) : State :=
  { gameStatus := .intro, attemptsLeft := 3, hasChecked := false,
    placedItems := [], availableItems := initItems, weather := ⟨0, 0, 0⟩ }

/-- The two drop targets of the dynamic `handleDrop`. -/
inductive Target
  | available
  | powerGrid
deriving DecidableEq

/-- Source: `handleDrop` — src/unnamed/part_002 lines 658-673: look the id up in
`availableItems` or else in `placedItems`; move it toward the target
container when it is in the opposite one; clear `hasChecked` whenever the id
was found at all. -/
def handleDrop (itemId : String) (target : Target) (s : State) : State :=
  match (s.availableItems.find? (fun i => i.id == itemId)).orElse
      (fun _ => s.placedItems.find? (fun i => i.id == itemId)) with
  | some item =>
      let s1 :=
        if target = .powerGrid ∧ s.availableItems.any (fun i => i.id == itemId) then
          { s with
            availableItems := s.availableItems.filter (fun i => !(i.id == itemId)),
            placedItems := s.placedItems ++ [item] }
        else if target = .available ∧ s.placedItems.any (fun i => i.id == itemId) then
          { s with
            placedItems := s.placedItems.filter (fun i => !(i.id == itemId)),
            availableItems := s.availableItems ++ [item] }
        else s
      { s1 with hasChecked := false }
  | none => s

/-- Source: `handleAddItem` — src/unnamed/part_002 lines 679-686. -/
def handleAddItem (id : String) (s : State) : State :=
  match s.availableItems.find? (fun i => i.id == id) with
  | some item =>
      { s with
        availableItems := s.availableItems.filter (fun i => !(i.id == id)),
        placedItems := s.placedItems ++ [item],
        hasChecked := false }
  | none => s

/-- Source: `handleRemoveItem` — src/unnamed/part_002 lines 688-695. -/
def handleRemoveItem (id : String) (s : State) : State :=
  match s.placedItems.find? (fun i => i.id == id) with
  | some item =>
      { s with
        placedItems := s.placedItems.filter (fun i => !(i.id == id)),
        availableItems := s.availableItems ++ [item],
        hasChecked := false }
  | none => s

/-- The slider categories of `handleWeatherChange`. -/
inductive WeatherType
  | sun
  | wind
  | rain
deriving DecidableEq

/-- Source: `handleWeatherChange` — src/unnamed/part_002 lines 697-704: store
`value / 100` in the chosen component and clear `hasChecked`. -/
def handleWeatherChange (t : WeatherType) (value : ℚ) (s : State) : State :=
  { s with
    weather :=
      match t with
      | .sun => { s.weather with sun := value / 100 }
      | .wind => { s.weather with wind := value / 100 }
      | .rain => { s.weather with rain := value / 100 },
    hasChecked := false }

/-- The initial `useState` values — src/unnamed/part_002 lines 549-571. -/
def initialState : State :=
  { gameStatus := .intro, attemptsLeft := 3, hasChecked := false,
    placedItems := [], availableItems := initItems, weather := ⟨0, 0, 0⟩ }

/-!
The user-facing operations.  Each handler can only fire from the screen that
renders its trigger: the Start button exists only on the `intro` screen
(src/unnamed/part_002 lines 807, 861), the item click/drop areas, the
"Check Energy Level" button (disabled while `placedItems` is empty, line 961)
and the weather sliders only on the `playing` screen (lines 744, 871-964),
and the replay buttons only on the `won`/`lost` screens (lines 970-1074).
The guarded dispatchers below encode exactly that gating.
-/

def startGame (s : State) : State :=
  if s.gameStatus = .intro then handleStartGame s else s

def moveToGrid (id : String) (s : State) : State :=
  if s.gameStatus = .playing then handleAddItem id s else s

def moveToAvailable (id : String) (s : State) : State :=
  if s.gameStatus = .playing then handleRemoveItem id s else s

def commit (s : State) : State :=
  if s.gameStatus = .playing ∧ s.placedItems ≠ [] then handleCheckEnergy s else s

def replay (s : State) : State :=
  if s.gameStatus = .won ∨ s.gameStatus = .lost then handleReplay s else s

def setWeather (t : WeatherType) (value : ℚ) (s : State) : State :=
  if s.gameStatus = .playing then handleWeatherChange t value s else s

/-- States reachable from the initial state by the user-facing operations;
the weather slider delivers an integer intensity in `0..100`
(`max={100} step={1}`). -/
inductive Reachable : State → Prop
  | init : Reachable initialState
  | startStep (s : State) : Reachable s → Reachable (startGame s)
  | moveToGridStep (id : String) (s : State) :
      Reachable s → Reachable (moveToGrid id s)
  | moveToAvailableStep (id : String) (s : State) :
      Reachable s → Reachable (moveToAvailable id s)
  | commitStep (s : State) : Reachable s → Reachable (commit s)
  | replayStep (s : State) : Reachable s → Reachable (replay s)
  | setWeatherStep (t : WeatherType) (k : ℕ) (hk : k ≤ 100) (s : State) :
      Reachable s → Reachable (setWeather t (k : ℚ) s)

/-- The conserved-collection invariant: the items of the two collections,
taken together as a multiset, are exactly the initial stock. -/
def itemsInv (s : State) : Prop :=
  (↑s.availableItems + ↑s.placedItems : Multiset Item) =
    (↑initItems : Multiset Item)

end Dynamic

end PerceptronCity

namespace PerceptronCity

/-- The fold of `totalEnergy` adds `specWeight` of the item's category at
each step, for any starting accumulator. -/
theorem totalEnergy_foldl (l : List Item) :
    ∀ a : Int,
      l.foldl
        (fun sum item =>
          if item.type = .solar then sum + Part000.SOLAR_WEIGHT
          else if item.type = .wind then sum + Part000.WIND_WEIGHT
          else if item.type = .hydro then sum + Part000.HYDRO_WEIGHT
          else sum)
        a = a + (l.map (fun i => specWeight i.type)).sum := by
  induction l with
  | nil => intro a; simp
  | cons x t ih =>
    intro a
    cases hx : x.type <;>
      simp [hx, ih, specWeight] <;> ring

/-- Claim C1: the evaluator's total equals the sum over placed items of the
per-category weight, and the verdict is `inRange` (`powered`) exactly when
`min ≤ total ≤ max` (both ends inclusive), `below` (`off`) exactly when
`total < min`, and `above` (`overload`) exactly when `total > max`. -/
theorem evaluator_correct :
    (∀ l : List Item,
        Part000.totalEnergy l = (l.map (fun i => specWeight i.type)).sum) ∧
    (∀ l : List Item,
        Part000.isInRange l = true ↔
          Part000.THRESHOLD_MIN ≤ Part000.totalEnergy l ∧
          Part000.totalEnergy l ≤ Part000.THRESHOLD_MAX) ∧
    (∀ si wi hi : ℚ,
        (CityTsx.cityState (CityTsx.totalEnergy si wi hi) = .powered ↔
          CityTsx.THRESHOLD_MIN ≤ CityTsx.totalEnergy si wi hi ∧
          CityTsx.totalEnergy si wi hi ≤ CityTsx.THRESHOLD_MAX) ∧
        (CityTsx.cityState (CityTsx.totalEnergy si wi hi) = .off ↔
          CityTsx.totalEnergy si wi hi < CityTsx.THRESHOLD_MIN) ∧
        (CityTsx.cityState (CityTsx.totalEnergy si wi hi) = .overload ↔
          CityTsx.THRESHOLD_MAX < CityTsx.totalEnergy si wi hi)) := by
  refine ⟨fun l => ?_, fun l => ?_, fun si wi hi => ?_⟩
  · simpa using totalEnergy_foldl l 0
  · simp [Part000.isInRange]
  · unfold CityTsx.cityState CityTsx.THRESHOLD_MIN CityTsx.THRESHOLD_MAX
    set t := CityTsx.totalEnergy si wi hi
    split_ifs with h1 h2
    · exact ⟨⟨fun _ => h1, fun _ => rfl⟩,
        ⟨fun h => by simp at h, fun h => absurd h1.1 (not_le.mpr h)⟩,
        ⟨fun h => by simp at h, fun h => absurd h1.2 (not_le.mpr h)⟩⟩
    · exact ⟨⟨fun h => by simp at h, fun h => absurd h.2 (not_le.mpr h2)⟩,
        ⟨fun h => by simp at h, fun h => absurd (h2.trans h) (by norm_num)⟩,
        ⟨fun _ => h2, fun _ => rfl⟩⟩
    · have h2' : t ≤ 20 := not_lt.mp h2
      have hlow : t < 10 := by
        by_contra hc
        push_neg at hc
        exact h1 ⟨hc, h2'⟩
      exact ⟨⟨fun h => by simp at h, fun h => absurd h h1⟩,
        ⟨fun _ => hlow, fun _ => rfl⟩,
        ⟨fun h => by simp at h, fun h => absurd h h2⟩⟩

/-- Claim C2: from a state in phase `playing`, a commit moves the phase to
`won` when the evaluation verdict is in range, leaving `attemptsLeft`
unchanged; otherwise it decrements `attemptsLeft` by exactly one, leaves the
phase `playing` when the decremented value is positive, and moves it to
`lost` exactly when the decremented value is zero.  Stated for part_000's
`handleCheckEnergy` and for the dynamic variant's. -/
theorem commit_phase_transitions (s : Part000.State) (d : Dynamic.State)
    (hs : s.gameStatus = .playing) (hd : d.gameStatus = .playing) :
    ((Part000.isInRange s.placedItems = true →
        (Part000.handleCheckEnergy s).gameStatus = .won ∧
        (Part000.handleCheckEnergy s).attemptsLeft = s.attemptsLeft) ∧
      (Part000.isInRange s.placedItems = false →
        (Part000.handleCheckEnergy s).attemptsLeft = s.attemptsLeft - 1 ∧
        (0 < s.attemptsLeft - 1 →
          (Part000.handleCheckEnergy s).gameStatus = .playing) ∧
        ((Part000.handleCheckEnergy s).gameStatus = .lost ↔
          s.attemptsLeft - 1 = 0))) ∧
    (((Dynamic.THRESHOLD_MIN ≤ Dynamic.totalEnergy d.weather d.placedItems ∧
        Dynamic.totalEnergy d.weather d.placedItems ≤ Dynamic.THRESHOLD_MAX) →
        (Dynamic.handleCheckEnergy d).gameStatus = .won ∧
        (Dynamic.handleCheckEnergy d).attemptsLeft = d.attemptsLeft) ∧
      (¬(Dynamic.THRESHOLD_MIN ≤ Dynamic.totalEnergy d.weather d.placedItems ∧
          Dynamic.totalEnergy d.weather d.placedItems ≤ Dynamic.THRESHOLD_MAX) →
        (Dynamic.handleCheckEnergy d).attemptsLeft = d.attemptsLeft - 1 ∧
        (0 < d.attemptsLeft - 1 →
          (Dynamic.handleCheckEnergy d).gameStatus = .playing) ∧
        ((Dynamic.handleCheckEnergy d).gameStatus = .lost ↔
          d.attemptsLeft - 1 = 0))) := by
  refine ⟨⟨fun h => ?_, fun h => ?_⟩, ⟨fun h => ?_, fun h => ?_⟩⟩
  · simp [Part000.handleCheckEnergy, h]
  · rw [Part000.handleCheckEnergy, if_neg (by simp [h])]
    dsimp only
    split_ifs with h0
    · exact ⟨rfl, fun hpos => absurd h0 (by omega), ⟨fun _ => h0, fun _ => rfl⟩⟩
    · refine ⟨rfl, fun _ => hs, ⟨fun hl => ?_, fun h1 => absurd h1 h0⟩⟩
      have hl' : s.gameStatus = GameStatus.lost := hl
      rw [hs] at hl'
      exact absurd hl' (by simp)
  · simp [Dynamic.handleCheckEnergy, h]
  · rw [Dynamic.handleCheckEnergy]
    dsimp only
    rw [if_neg (by simpa using h)]
    split_ifs with h0
    · exact ⟨rfl, fun hpos => absurd h0 (by omega), ⟨fun _ => h0, fun _ => rfl⟩⟩
    · refine ⟨rfl, fun _ => hd, ⟨fun hl => ?_, fun h1 => absurd h1 h0⟩⟩
      have hl' : d.gameStatus = GameStatus.lost := hl
      rw [hd] at hl'
      exact absurd hl' (by simp)

/-- Witness for C2 at concrete failing commits: with nothing placed the
verdict is out of range, so one attempt is consumed in both variants. -/
theorem commit_phase_transitions_witness :
    (Part000.handleCheckEnergy ⟨.playing, 5, 5, 5, 5, []⟩).attemptsLeft = 5 - 1 ∧
    (Dynamic.handleCheckEnergy
      ⟨.playing, 3, false, [], initItems, ⟨0, 0, 0⟩⟩).attemptsLeft = 3 - 1 :=
  ⟨((commit_phase_transitions ⟨.playing, 5, 5, 5, 5, []⟩
      ⟨.playing, 3, false, [], initItems, ⟨0, 0, 0⟩⟩ rfl rfl).1.2 (by decide)).1,
   ((commit_phase_transitions ⟨.playing, 5, 5, 5, 5, []⟩
      ⟨.playing, 3, false, [], initItems, ⟨0, 0, 0⟩⟩ rfl rfl).2.2 (by decide)).1⟩

/-- Claim C6: a commit attempted with an empty placed collection or outside
the `playing` phase is a no-op — the UI guard (button rendered only while
`playing` and disabled on an empty grid) rejects it, leaving the whole state
unchanged. -/
theorem commit_rejected_noop (s : Part000.State)
    (h : s.placedItems = [] ∨ s.gameStatus ≠ .playing) :
    Part000.commit s = s := by
  unfold Part000.commit
  rw [if_neg]
  rintro ⟨hp, hne⟩
  rcases h with h | h
  · exact hne h
  · exact h hp

/-- Witness for C6: a commit on the empty grid changes nothing. -/
theorem commit_rejected_noop_witness :
    Part000.commit ⟨.playing, 5, 5, 5, 5, []⟩ = ⟨.playing, 5, 5, 5, 5, []⟩ :=
  commit_rejected_noop ⟨.playing, 5, 5, 5, 5, []⟩ (Or.inl rfl)

/-- Claim C7: a move whose id is absent from the expected source collection
is a no-op: the resulting state equals the original state in every component
(part_001's `handleDrop` and `handleRemoveItem`). -/
theorem move_missing_id_noop (s : Part001.State) (x : String) :
    ((∀ i ∈ s.availableItems, i.id ≠ x) → Part001.handleDrop x s = s) ∧
    ((∀ i ∈ s.placedItems, i.id ≠ x) → Part001.handleRemoveItem x s = s) := by
  constructor
  · intro h
    unfold Part001.handleDrop
    rw [List.find?_eq_none.mpr (fun i hi => by simpa using h i hi)]
  · intro h
    unfold Part001.handleRemoveItem
    rw [List.find?_eq_none.mpr (fun i hi => by simpa using h i hi)]

/-- Witness for C7 at a concrete state and an id that exists nowhere. -/
theorem move_missing_id_noop_witness :
    Part001.handleDrop ("none") ⟨.playing, 5, false, [], initItems⟩ =
      ⟨.playing, 5, false, [], initItems⟩ ∧
    Part001.handleRemoveItem ("none") ⟨.playing, 5, false, [], initItems⟩ =
      ⟨.playing, 5, false, [], initItems⟩ :=
  ⟨(move_missing_id_noop ⟨.playing, 5, false, [], initItems⟩ ("none")).1 (by decide),
   (move_missing_id_noop ⟨.playing, 5, false, [], initItems⟩ ("none")).2 (by decide)⟩

/-- Claim C9: while `playing`, every successful move (the id is present in
the expected source collection) clears `hasChecked` and leaves
`attemptsLeft` unchanged — part_001's `handleDrop`/`handleRemoveItem` and
the dynamic variant's `handleDrop` (both targets), `handleAddItem` and
`handleRemoveItem`. -/
theorem move_resets_hasChecked (t : Part001.State) (d : Dynamic.State)
    (x y z w : String)
    (ht : t.gameStatus = .playing) (hd : d.gameStatus = .playing) :
    ((t.availableItems.find? (fun i => i.id == x)).isSome →
      (Part001.handleDrop x t).hasChecked = false ∧
      (Part001.handleDrop x t).attemptsLeft = t.attemptsLeft) ∧
    ((t.placedItems.find? (fun i => i.id == y)).isSome →
      (Part001.handleRemoveItem y t).hasChecked = false ∧
      (Part001.handleRemoveItem y t).attemptsLeft = t.attemptsLeft) ∧
    ((d.availableItems.find? (fun i => i.id == z)).isSome →
      (Dynamic.handleDrop z .powerGrid d).hasChecked = false ∧
      (Dynamic.handleDrop z .powerGrid d).attemptsLeft = d.attemptsLeft) ∧
    ((d.placedItems.find? (fun i => i.id == w)).isSome →
      (Dynamic.handleDrop w .available d).hasChecked = false ∧
      (Dynamic.handleDrop w .available d).attemptsLeft = d.attemptsLeft) ∧
    ((d.availableItems.find? (fun i => i.id == z)).isSome →
      (Dynamic.handleAddItem z d).hasChecked = false ∧
      (Dynamic.handleAddItem z d).attemptsLeft = d.attemptsLeft) ∧
    ((d.placedItems.find? (fun i => i.id == w)).isSome →
      (Dynamic.handleRemoveItem w d).hasChecked = false ∧
      (Dynamic.handleRemoveItem w d).attemptsLeft = d.attemptsLeft) := by
  refine ⟨fun h => ?_, fun h => ?_, fun h => ?_, fun h => ?_, fun h => ?_,
    fun h => ?_⟩
  · obtain ⟨a, ha⟩ := Option.isSome_iff_exists.mp h
    unfold Part001.handleDrop
    rw [ha]
    exact ⟨rfl, rfl⟩
  · obtain ⟨a, ha⟩ := Option.isSome_iff_exists.mp h
    unfold Part001.handleRemoveItem
    rw [ha]
    exact ⟨rfl, rfl⟩
  · obtain ⟨a, ha⟩ := Option.isSome_iff_exists.mp h
    unfold Dynamic.handleDrop
    rw [ha]
    dsimp only [Option.orElse]
    split_ifs <;> exact ⟨rfl, rfl⟩
  · obtain ⟨a, ha⟩ := Option.isSome_iff_exists.mp h
    unfold Dynamic.handleDrop
    rcases hb : d.availableItems.find? (fun i => i.id == w) with _ | b
    · rw [hb]
      dsimp only [Option.orElse]
      rw [ha]
      dsimp only
      split_ifs <;> exact ⟨rfl, rfl⟩
    · rw [hb]
      dsimp only [Option.orElse]
      split_ifs <;> exact ⟨rfl, rfl⟩
  · obtain ⟨a, ha⟩ := Option.isSome_iff_exists.mp h
    unfold Dynamic.handleAddItem
    rw [ha]
    exact ⟨rfl, rfl⟩
  · obtain ⟨a, ha⟩ := Option.isSome_iff_exists.mp h
    unfold Dynamic.handleRemoveItem
    rw [ha]
    exact ⟨rfl, rfl⟩

/-- Witness for C9 at the full initial stock: moving `solar-0` to the grid. -/
theorem move_resets_hasChecked_witness :
    (Part001.handleDrop ("solar-0")
      ⟨.playing, 5, true, [], initItems⟩).hasChecked = false ∧
    (Dynamic.handleAddItem ("solar-0")
      ⟨.playing, 3, true, [], initItems, ⟨0, 0, 0⟩⟩).hasChecked = false :=
  ⟨((move_resets_hasChecked ⟨.playing, 5, true, [], initItems⟩
      ⟨.playing, 3, true, [], initItems, ⟨0, 0, 0⟩⟩ ("solar-0") ("x") ("solar-0") ("x")
      rfl rfl).1 (by decide)).1,
   (((move_resets_hasChecked ⟨.playing, 5, true, [], initItems⟩
      ⟨.playing, 3, true, [], initItems, ⟨0, 0, 0⟩⟩ ("solar-0") ("x") ("solar-0") ("x")
      rfl rfl).2.2.2.2.1) (by decide)).1⟩

/-- Claim C10: a commit modifies only the phase, `attemptsLeft` and the
`hasChecked` flag; the available collection, the placed collection and (in
the dynamic variant) the weather vector are unchanged, whether the
evaluation succeeds or fails. -/
theorem commit_frame (s : Part000.State) (t : Part001.State)
    (d : Dynamic.State) :
    ((Part000.handleCheckEnergy s).availableSolar = s.availableSolar ∧
      (Part000.handleCheckEnergy s).availableWind = s.availableWind ∧
      (Part000.handleCheckEnergy s).availableHydro = s.availableHydro ∧
      (Part000.handleCheckEnergy s).placedItems = s.placedItems) ∧
    ((Part001.handleCheckEnergy t).availableItems = t.availableItems ∧
      (Part001.handleCheckEnergy t).placedItems = t.placedItems) ∧
    ((Dynamic.handleCheckEnergy d).availableItems = d.availableItems ∧
      (Dynamic.handleCheckEnergy d).placedItems = d.placedItems ∧
      (Dynamic.handleCheckEnergy d).weather = d.weather) := by
  refine ⟨?_, ?_, ?_⟩
  · unfold Part000.handleCheckEnergy
    dsimp only
    split_ifs <;> exact ⟨rfl, rfl, rfl, rfl⟩
  · unfold Part001.handleCheckEnergy
    dsimp only
    split_ifs <;> exact ⟨rfl, rfl⟩
  · unfold Dynamic.handleCheckEnergy
    dsimp only
    split_ifs <;> exact ⟨rfl, rfl, rfl⟩

/-! Helper lemmas about `find?`, `filter` and the id lists. -/

theorem idsOf_cons (y : Item) (t : List Item) :
    idsOf (y :: t) = y.id :: idsOf t := rfl

theorem find?_id_of_eq_some {l : List Item} {x : String} {a : Item}
    (h : l.find? (fun i => i.id == x) = some a) : a.id = x := by
  simpa using List.find?_some h

theorem filter_ne_of_not_mem {l : List Item} {x : String}
    (h : x ∉ idsOf l) : l.filter (fun i => !(i.id == x)) = l := by
  apply List.filter_eq_self.mpr
  intro a ha
  simp only [Bool.not_eq_true', beq_eq_false_iff_ne]
  intro hax
  exact h (hax ▸ List.mem_map_of_mem Item.id ha)

/-- When the id lists are duplicate-free, a found item can be split off: the
source list is a permutation of the found item consed onto the filtered
list. -/
theorem find?_perm_filter :
    ∀ (l : List Item) (x : String) (a : Item),
      (idsOf l).Nodup → l.find? (fun i => i.id == x) = some a →
      l.Perm (a :: l.filter (fun i => !(i.id == x))) := by
  intro l
  induction l with
  | nil => intro x a _ hf; simp at hf
  | cons y t ih =>
    intro x a hn hf
    rw [idsOf_cons, List.nodup_cons] at hn
    by_cases hy : y.id = x
    · rw [List.find?_cons_of_pos _ (by simp [hy])] at hf
      have hya := Option.some.inj hf
      subst hya
      have hxt : x ∉ idsOf t := by
        rw [← hy]
        exact hn.1
      rw [List.filter_cons, if_neg (by simp [hy]), filter_ne_of_not_mem hxt]
    · rw [List.find?_cons_of_neg _ (by simp [hy])] at hf
      have hperm := ih x a hn.2 hf
      rw [List.filter_cons, if_pos (by simp [hy])]
      exact (List.Perm.cons y hperm).trans
        (List.Perm.swap a y (t.filter (fun i => !(i.id == x))))

/-- Multiset form of `find?_perm_filter`: removing the found item by
filtering and putting it back restores the source multiset. -/
theorem move_multiset {l : List Item} {x : String} {a : Item}
    (hn : (idsOf l).Nodup) (hf : l.find? (fun i => i.id == x) = some a) :
    (↑(l.filter (fun i => !(i.id == x))) : Multiset Item) + {a} = ↑l := by
  rw [Multiset.coe_eq_coe.mpr (find?_perm_filter l x a hn hf),
    ← Multiset.cons_coe, ← Multiset.singleton_add, add_comm]

theorem find?_append_singleton (l : List Item) (a : Item) (x : String)
    (hl : x ∉ idsOf l) (ha : a.id = x) :
    (l ++ [a]).find? (fun i => i.id == x) = some a := by
  induction l with
  | nil => simp [ha]
  | cons y t ih =>
    rw [idsOf_cons, List.mem_cons] at hl
    push_neg at hl
    rw [List.cons_append,
      List.find?_cons_of_neg _ (by simpa using Ne.symm hl.1)]
    exact ih hl.2

theorem add_rot (m1 m2 m3 : Multiset Item) :
    m1 + (m2 + m3) = m1 + m3 + m2 := by
  rw [add_comm m2 m3, ← add_assoc]

/-! Frame helper lemmas: which state fields each dynamic handler can touch. -/

theorem addItem_status (id : String) (s : Dynamic.State) :
    (Dynamic.handleAddItem id s).gameStatus = s.gameStatus := by
  unfold Dynamic.handleAddItem
  rcases hf : s.availableItems.find? (fun i => i.id == id) with _ | a <;>
    rw [hf]

theorem removeItem_status (id : String) (s : Dynamic.State) :
    (Dynamic.handleRemoveItem id s).gameStatus = s.gameStatus := by
  unfold Dynamic.handleRemoveItem
  rcases hf : s.placedItems.find? (fun i => i.id == id) with _ | a <;>
    rw [hf]

theorem checkEnergy_status (s : Dynamic.State) :
    (Dynamic.handleCheckEnergy s).gameStatus = .won ∨
    (Dynamic.handleCheckEnergy s).gameStatus = .lost ∨
    (Dynamic.handleCheckEnergy s).gameStatus = s.gameStatus := by
  unfold Dynamic.handleCheckEnergy
  dsimp only
  split_ifs
  · exact Or.inl rfl
  · exact Or.inr (Or.inl rfl)
  · exact Or.inr (Or.inr rfl)

theorem checkEnergy_collections (s : Dynamic.State) :
    (Dynamic.handleCheckEnergy s).availableItems = s.availableItems ∧
    (Dynamic.handleCheckEnergy s).placedItems = s.placedItems := by
  unfold Dynamic.handleCheckEnergy
  dsimp only
  split_ifs <;> exact ⟨rfl, rfl⟩

/-- The conserved-collection invariant yields duplicate-freeness of both id
lists and their disjointness. -/
theorem itemsInv_nodup {s : Dynamic.State} (h : Dynamic.itemsInv s) :
    (idsOf s.availableItems).Nodup ∧ (idsOf s.placedItems).Nodup ∧
      (idsOf s.availableItems).Disjoint (idsOf s.placedItems) := by
  have hmap := congrArg (Multiset.map Item.id) h
  rw [Multiset.map_add, Multiset.map_coe, Multiset.map_coe,
    Multiset.map_coe] at hmap
  have hnd : ((initItems.map Item.id : List String) : Multiset String).Nodup := by
    rw [Multiset.coe_nodup]
    decide
  rw [← hmap, Multiset.nodup_add] at hnd
  exact ⟨Multiset.coe_nodup.mp hnd.1, Multiset.coe_nodup.mp hnd.2.1,
    (Multiset.coe_disjoint _ _).mp hnd.2.2⟩

/-- Every reachable state of the dynamic variant satisfies the
conserved-collection invariant. -/
theorem reachable_itemsInv {s : Dynamic.State} (h : Dynamic.Reachable s) :
    Dynamic.itemsInv s := by
  induction h with
  | init =>
    unfold Dynamic.itemsInv Dynamic.initialState
    simp
  | startStep s0 hr ih =>
    unfold Dynamic.startGame
    split_ifs <;> exact ih
  | moveToGridStep id s0 hr ih =>
    unfold Dynamic.moveToGrid
    split_ifs
    · unfold Dynamic.handleAddItem
      rcases hf : s0.availableItems.find? (fun i => i.id == id) with _ | a
      · rw [hf]
        exact ih
      · rw [hf]
        unfold Dynamic.itemsInv at ih ⊢
        dsimp only
        rw [← Multiset.coe_add s0.placedItems [a], Multiset.coe_singleton,
          add_rot, move_multiset (itemsInv_nodup ih).1 hf]
        exact ih
    · exact ih
  | moveToAvailableStep id s0 hr ih =>
    unfold Dynamic.moveToAvailable
    split_ifs
    · unfold Dynamic.handleRemoveItem
      rcases hf : s0.placedItems.find? (fun i => i.id == id) with _ | a
      · rw [hf]
        exact ih
      · rw [hf]
        unfold Dynamic.itemsInv at ih ⊢
        dsimp only
        rw [← Multiset.coe_add s0.availableItems [a], Multiset.coe_singleton,
          add_assoc, add_comm ({a} : Multiset Item) _,
          move_multiset (itemsInv_nodup ih).2.1 hf]
        exact ih
    · exact ih
  | commitStep s0 hr ih =>
    unfold Dynamic.commit
    split_ifs
    · unfold Dynamic.itemsInv at ih ⊢
      rw [(checkEnergy_collections s0).1, (checkEnergy_collections s0).2]
      exact ih
    · exact ih
  | replayStep s0 hr ih =>
    unfold Dynamic.replay
    split_ifs
    · unfold Dynamic.itemsInv Dynamic.handleReplay
      simp
    · exact ih
  | setWeatherStep t k hk s0 hr ih =>
    unfold Dynamic.setWeather
    split_ifs <;> exact ih

/-- Claim C3: in every state reachable from the initial state by the
user-facing operations (`startGame`, `moveToGrid`, `moveToAvailable`,
`commit`, `replay`, `setWeather`), the available and placed collections are
disjoint and the sum of their sizes equals the constant total item count,
`3 × 5 = 15`. -/
theorem reachable_disjoint_union {s : Dynamic.State}
    (h : Dynamic.Reachable s) :
    (idsOf s.availableItems).Disjoint (idsOf s.placedItems) ∧
    s.availableItems.length + s.placedItems.length = 3 * 5 := by
  have hinv := reachable_itemsInv h
  refine ⟨(itemsInv_nodup hinv).2.2, ?_⟩
  have hc := congrArg Multiset.card hinv
  rw [Multiset.card_add, Multiset.coe_card, Multiset.coe_card,
    Multiset.coe_card] at hc
  rw [show initItems.length = 15 from rfl] at hc
  omega

/-- Witness for C3 at the initial state itself. -/
theorem reachable_disjoint_union_witness :
    (idsOf (Dynamic.initialState).availableItems).Disjoint
      (idsOf (Dynamic.initialState).placedItems) ∧
    (Dynamic.initialState).availableItems.length +
      (Dynamic.initialState).placedItems.length = 3 * 5 :=
  reachable_disjoint_union Dynamic.Reachable.init

/-- Every reachable `intro` state is fully reset: it is either the initial
state or was produced by `handleReplay`, and no operation fires on the
`intro` screen except Start. -/
theorem reachable_intro_reset {s : Dynamic.State} (h : Dynamic.Reachable s) :
    s.gameStatus = .intro →
      s.attemptsLeft = 3 ∧ s.placedItems = [] ∧
        s.availableItems = initItems := by
  induction h with
  | init => exact fun _ => ⟨rfl, rfl, rfl⟩
  | startStep s0 hr ih =>
    intro hi
    unfold Dynamic.startGame at hi ⊢
    split_ifs at hi ⊢ with hg
    · have hi' : GameStatus.playing = GameStatus.intro := hi
      exact absurd hi' (by simp)
    · exact ih hi
  | moveToGridStep id s0 hr ih =>
    intro hi
    unfold Dynamic.moveToGrid at hi ⊢
    split_ifs at hi ⊢ with hg
    · rw [addItem_status] at hi
      rw [hg] at hi
      exact absurd hi (by simp)
    · exact ih hi
  | moveToAvailableStep id s0 hr ih =>
    intro hi
    unfold Dynamic.moveToAvailable at hi ⊢
    split_ifs at hi ⊢ with hg
    · rw [removeItem_status] at hi
      rw [hg] at hi
      exact absurd hi (by simp)
    · exact ih hi
  | commitStep s0 hr ih =>
    intro hi
    unfold Dynamic.commit at hi ⊢
    split_ifs at hi ⊢ with hg
    · rcases checkEnergy_status s0 with hw | hl | hu
      · rw [hw] at hi
        exact absurd hi (by simp)
      · rw [hl] at hi
        exact absurd hi (by simp)
      · rw [hu, hg.1] at hi
        exact absurd hi (by simp)
    · exact ih hi
  | replayStep s0 hr ih =>
    intro hi
    unfold Dynamic.replay at hi ⊢
    split_ifs at hi ⊢ with hg
    · exact ⟨rfl, rfl, rfl⟩
    · exact ih hi
  | setWeatherStep t k hk s0 hr ih =>
    intro hi
    unfold Dynamic.setWeather at hi ⊢
    split_ifs at hi ⊢ with hg
    · have hi' : s0.gameStatus = GameStatus.intro := hi
      rw [hg] at hi'
      exact absurd hi' (by simp)
    · exact ih hi

/-- Claim C5: from every reachable state in phase `intro`, the start
operation moves the phase to `playing` with `attemptsLeft` at the
configured maximum (3 in the dynamic variant), an empty placed collection
and the full initial available stock.  (The handler itself only flips the
phase; every reachable `intro` state already carries the reset values, which
start preserves.) -/
theorem startGame_resets {s : Dynamic.State} (h : Dynamic.Reachable s)
    (hi : s.gameStatus = .intro) :
    (Dynamic.startGame s).gameStatus = .playing ∧
    (Dynamic.startGame s).attemptsLeft = 3 ∧
    (Dynamic.startGame s).placedItems = [] ∧
    (Dynamic.startGame s).availableItems = initItems := by
  obtain ⟨h3, hp, ha⟩ := reachable_intro_reset h hi
  unfold Dynamic.startGame
  rw [if_pos hi]
  exact ⟨rfl, h3, hp, ha⟩

/-- Witness for C5 at the initial state. -/
theorem startGame_resets_witness :
    (Dynamic.startGame Dynamic.initialState).gameStatus = .playing ∧
    (Dynamic.startGame Dynamic.initialState).attemptsLeft = 3 ∧
    (Dynamic.startGame Dynamic.initialState).placedItems = [] ∧
    (Dynamic.startGame Dynamic.initialState).availableItems = initItems :=
  startGame_resets Dynamic.Reachable.init rfl

/-- Claim C8: in every reachable state with item id `x` in the available
collection, `moveToGrid(x)` followed by `moveToAvailable(x)` restores the
membership of both collections as multisets (order inside the collections
may differ, composition does not). -/
theorem move_round_trip {s : Dynamic.State} (x : String)
    (h : Dynamic.Reachable s) (hx : x ∈ idsOf s.availableItems) :
    (↑(Dynamic.handleRemoveItem x
        (Dynamic.handleAddItem x s)).availableItems : Multiset Item) =
      ↑s.availableItems ∧
    (↑(Dynamic.handleRemoveItem x
        (Dynamic.handleAddItem x s)).placedItems : Multiset Item) =
      ↑s.placedItems := by
  obtain ⟨hna, hnp, hdisj⟩ := itemsInv_nodup (reachable_itemsInv h)
  have hsome : (s.availableItems.find? (fun i => i.id == x)).isSome := by
    rw [List.find?_isSome]
    obtain ⟨a, ha, rfl⟩ := List.mem_map.mp hx
    exact ⟨a, ha, by simp⟩
  obtain ⟨a, hf⟩ := Option.isSome_iff_exists.mp hsome
  have hax : a.id = x := find?_id_of_eq_some hf
  have hxp : x ∉ idsOf s.placedItems := fun hmem => hdisj hx hmem
  unfold Dynamic.handleAddItem
  rw [hf]
  unfold Dynamic.handleRemoveItem
  dsimp only
  rw [find?_append_singleton s.placedItems a x hxp hax]
  dsimp only
  constructor
  · rw [← Multiset.coe_add _ [a], Multiset.coe_singleton,
      move_multiset hna hf]
  · rw [List.filter_append, filter_ne_of_not_mem hxp,
      show [a].filter (fun i => !(i.id == x)) = [] from by simp [hax],
      List.append_nil]

/-- Witness for C8: round-tripping `solar-0` from the initial state. -/
theorem move_round_trip_witness :
    (↑(Dynamic.handleRemoveItem ("solar-0")
        (Dynamic.handleAddItem ("solar-0")
          Dynamic.initialState)).availableItems : Multiset Item) =
      ↑(Dynamic.initialState).availableItems ∧
    (↑(Dynamic.handleRemoveItem ("solar-0")
        (Dynamic.handleAddItem ("solar-0")
          Dynamic.initialState)).placedItems : Multiset Item) =
      ↑(Dynamic.initialState).placedItems :=
  move_round_trip ("solar-0") Dynamic.Reachable.init (by decide)

/-- Counterexample to C4 as stated: at `weather.sun = 1/10000` the unrounded
per-solar weight would be `1/10000 * 100 / 5 = 1/500`, but
`getDynamicWeights` rounds it to `0` and `totalEnergy` sums that rounded
value — the rounded value, not the unrounded one, is used internally. -/
theorem dynamic_weight_rounding_counterexample :
    (Dynamic.getDynamicWeights ⟨1 / 10000, 0, 0⟩).solar = 0 ∧
    ((1 : ℚ) / 10000) * 100 / Dynamic.NUM_ITEMS_PER_TYPE = 1 / 500 ∧
    (0 : ℚ) ≠ 1 / 500 ∧
    Dynamic.totalEnergy ⟨1 / 10000, 0, 0⟩ [⟨"solar-0", .solar⟩] = 0 := by
  have hfloor :
      ⌊(1 : ℚ) / 10000 * 100 / Dynamic.NUM_ITEMS_PER_TYPE * 100 + 1 / 2⌋ = 0 := by
    rw [Int.floor_eq_iff]
    norm_num [Dynamic.NUM_ITEMS_PER_TYPE]
  have hsolar : (Dynamic.getDynamicWeights ⟨1 / 10000, 0, 0⟩).solar = 0 := by
    unfold Dynamic.getDynamicWeights Dynamic.round2
    dsimp only
    rw [hfloor]
    norm_num
  refine ⟨hsolar, by norm_num [Dynamic.NUM_ITEMS_PER_TYPE], by norm_num, ?_⟩
  show (0 : ℚ) + (Dynamic.getDynamicWeights ⟨1 / 10000, 0, 0⟩).solar = 0
  rw [hsolar]
  norm_num

/-- Claim C4 (amended): the per-item weight of a category is
`weather[category] * 100 / itemsPerCategory` rounded to 2 decimal places,
and the rounded value is also the one summed by `totalEnergy`; for every
weather value the sliders can produce (an integer percentage `k / 100`) the
rounding is exact, so there the per-item weight equals the unrounded
`weather[category] * 100 / itemsPerCategory`; in particular with
`sun = 0.5` the per-solar weight is `10.0` and placing 3 solar items yields
`total = 30.0`. -/
theorem dynamic_weight_rounding_amended :
    (∀ w : Dynamic.Weather,
        Dynamic.getDynamicWeights w =
          ⟨Dynamic.round2 (w.sun * 100 / Dynamic.NUM_ITEMS_PER_TYPE),
           Dynamic.round2 (w.wind * 100 / Dynamic.NUM_ITEMS_PER_TYPE),
           Dynamic.round2 (w.rain * 100 / Dynamic.NUM_ITEMS_PER_TYPE)⟩) ∧
    (∀ k : ℕ,
        Dynamic.round2 ((k : ℚ) / 100 * 100 / Dynamic.NUM_ITEMS_PER_TYPE) =
          (k : ℚ) / 100 * 100 / Dynamic.NUM_ITEMS_PER_TYPE) ∧
    ((Dynamic.getDynamicWeights ⟨1 / 2, 0, 0⟩).solar = 10 ∧
      Dynamic.totalEnergy ⟨1 / 2, 0, 0⟩
        [⟨"solar-0", .solar⟩, ⟨"solar-1", .solar⟩, ⟨"solar-2", .solar⟩] =
        30) := by
  have hfloor10 :
      ⌊(1 : ℚ) / 2 * 100 / Dynamic.NUM_ITEMS_PER_TYPE * 100 + 1 / 2⌋ = 1000 := by
    rw [Int.floor_eq_iff]
    norm_num [Dynamic.NUM_ITEMS_PER_TYPE]
  have hsolar10 : (Dynamic.getDynamicWeights ⟨1 / 2, 0, 0⟩).solar = 10 := by
    unfold Dynamic.getDynamicWeights Dynamic.round2
    dsimp only
    rw [hfloor10]
    norm_num
  refine ⟨fun w => rfl, fun k => ?_, hsolar10, ?_⟩
  · have harg : (k : ℚ) / 100 * 100 / Dynamic.NUM_ITEMS_PER_TYPE = (k : ℚ) / 5 := by
      unfold Dynamic.NUM_ITEMS_PER_TYPE
      ring
    rw [harg]
    unfold Dynamic.round2
    rw [show (k : ℚ) / 5 * 100 = ((20 * k : ℤ) : ℚ) from by push_cast; ring,
      add_comm, Int.floor_add_int,
      show ⌊(1 / 2 : ℚ)⌋ = 0 from by norm_num]
    push_cast
    ring
  · show (0 : ℚ) + (Dynamic.getDynamicWeights ⟨1 / 2, 0, 0⟩).solar +
        (Dynamic.getDynamicWeights ⟨1 / 2, 0, 0⟩).solar +
        (Dynamic.getDynamicWeights ⟨1 / 2, 0, 0⟩).solar = 30
    rw [hsolar10]
    norm_num

end PerceptronCity
